import Mathlib

/-!
Shallow embedding of the biorxiv_rag chunking / indexing / retrieval
pipeline (src/build_rag.py, src/vector_database.py, src/search_interface.py,
src/rag_system.py, src/embeddings.py, src/config.py), together with proofs
of the specified properties.

XML documents are modelled as rose trees of elements; the lxml xpath
selections used by the source (`.//tag`, `.//body//sec[@id]`,
`.//abstract//p`, `.//subj-group/subject`) are modelled as filters over a
state-annotated preorder (= document order) traversal.
-/

namespace BiorxivRag

mutual
/-- An XML element: tag name, attribute list, direct text, children.
Mirrors the lxml element view used by `build_rag.py` (tails elided). -/
inductive Elem where
  | mk (tag : String) (attrs : List (String × String)) (text : String)
      (children : ElemList)

/-- The child list of an element. -/
inductive ElemList where
  | nil
  | cons (e : Elem) (rest : ElemList)
end

def Elem.tag : Elem → String
  | .mk t _ _ _ => t

def Elem.attrs : Elem → List (String × String)
  | .mk _ a _ _ => a

def Elem.text : Elem → String
  | .mk _ _ x _ => x

def Elem.children : Elem → ElemList
  | .mk _ _ _ cs => cs

/-- `element.get(key)` of lxml: first attribute with the given key. -/
def Elem.getAttr (e : Elem) (k : String) : Option String :=
  e.attrs.lookup k

def ElemList.ofList : List Elem → ElemList
  | [] => .nil
  | e :: rest => .cons e (ElemList.ofList rest)

/-- Convenience constructor for concrete documents. -/
def el (tag : String) (attrs : List (String × String)) (text : String)
    (children : List Elem) : Elem :=
  .mk tag attrs text (ElemList.ofList children)

mutual
/-- Preorder (= document order) traversal of one element's subtree, each
node paired with an incoming state computed from its ancestors by `u`. -/
def annotE {σ : Type} (u : σ → Elem → σ) (s : σ) (e : Elem) :
    List (σ × Elem) :=
  match e with
  | .mk t a x cs =>
      (s, .mk t a x cs) :: annotL u (u s (.mk t a x cs)) cs
termination_by structural e

/-- Preorder traversal of a forest with ancestor state. -/
def annotL {σ : Type} (u : σ → Elem → σ) (s : σ) :
    ElemList → List (σ × Elem)
  | .nil => []
  | .cons e rest => annotE u s e ++ annotL u s rest
termination_by structural l => l
end

/-- Document order of all nodes of a forest (each node before its own
descendants). -/
def preorder (cs : ElemList) : List Elem :=
  (annotL (fun _ _ => ()) () cs).map Prod.snd

/-- The node sequence of an annotated traversal does not depend on the
annotation. -/
theorem annotL_map_snd {σ σ' : Type} (u : σ → Elem → σ)
    (u' : σ' → Elem → σ') (s : σ) (s' : σ') (cs : ElemList) :
    (annotL u s cs).map Prod.snd = (annotL u' s' cs).map Prod.snd := by
  match cs with
  | .nil => simp [annotL]
  | .cons (.mk t a x c) rest =>
      simp only [annotL, annotE, List.map_append, List.map_cons,
        List.cons_append, List.cons.injEq, true_and]
      rw [annotL_map_snd u u' (u s (.mk t a x c)) (u' s' (.mk t a x c)) c,
        annotL_map_snd u u' s s' rest]
termination_by sizeOf cs
decreasing_by
  all_goals simp
  all_goals omega

/-- A state-dependent xpath-style selection: keep the nodes of the
annotated document-order traversal of the element's proper descendants
that satisfy `keep`. -/
def select {σ : Type} (u : σ → Elem → σ) (keep : σ × Elem → Bool)
    (s : σ) (e : Elem) : List Elem :=
  ((annotL u s e.children).filter keep).map Prod.snd

/-- Every selection lists its nodes in document order. -/
theorem select_sublist_preorder {σ : Type} (u : σ → Elem → σ)
    (keep : σ × Elem → Bool) (s : σ) (e : Elem) :
    (select u keep s e).Sublist (preorder e.children) := by
  unfold select preorder
  rw [annotL_map_snd (fun _ _ => ()) u () s e.children]
  exact List.Sublist.map Prod.snd (List.filter_sublist _)

/-- Selected nodes satisfy any property implied by the selection
predicate. -/
theorem select_mem_prop {σ : Type} (u : σ → Elem → σ)
    (keep : σ × Elem → Bool) (s : σ) (e : Elem) (p : Elem → Prop)
    (hp : ∀ q : σ × Elem, keep q = true → p q.2) :
    ∀ x ∈ select u keep s e, p x := by
  intro x hx
  unfold select at hx
  rcases List.mem_map.1 hx with ⟨q, hq, rfl⟩
  exact hp q (List.of_mem_filter hq)

mutual
/-- All text in an element's subtree, in document order:
`etree.tostring(el, method='text')`. -/
def textContent (e : Elem) : String :=
  match e with
  | .mk _ _ x cs => x ++ textContentL cs
termination_by structural e

def textContentL : ElemList → String
  | .nil => ""
  | .cons e rest => textContent e ++ textContentL rest
termination_by structural l => l
end

/-- Python `s.strip()`: drop leading and trailing whitespace. -/
def pyStrip (s : String) : String :=
  ⟨((s.data.dropWhile Char.isWhitespace).reverse.dropWhile
      Char.isWhitespace).reverse⟩

/-- Python `s[:n]` on a string (slice of code points). -/
def pyTake (n : Nat) (s : String) : String :=
  ⟨s.data.take n⟩

/-- `.//t`: all descendants with the given tag, document order. -/
def selTag (t : String) (e : Elem) : List Elem :=
  select (fun f _ => f) (fun q => q.2.tag == t) false e

/-- `.//article-id[@pub-id-type='doi']`. -/
def selArticleIdDoi (e : Elem) : List Elem :=
  select (fun f _ => f)
    (fun q => q.2.tag == "article-id" &&
      q.2.getAttr "pub-id-type" == some "doi") false e

/-- `.//abstract//p`: p-descendants of abstract-descendants. -/
def selAbstractP (e : Elem) : List Elem :=
  select (fun f x => f || x.tag == "abstract")
    (fun q => q.1 && q.2.tag == "p") false e

/-- `.//body//sec[@id]`: id-bearing sec-descendants of body-descendants. -/
def selBodySecId (e : Elem) : List Elem :=
  select (fun f x => f || x.tag == "body")
    (fun q => q.1 && q.2.tag == "sec" && (q.2.getAttr "id").isSome) false e

/-- `.//subj-group/subject`: subject children of subj-group descendants. -/
def selSubjects (e : Elem) : List Elem :=
  select (fun _ x => x.tag == "subj-group")
    (fun q => q.1 && q.2.tag == "subject") false e

/-- `_extract_text`: text content of the first selected element, stripped;
empty selection gives the empty string. -/
def extract_text (sel : List Elem) : String :=
  match sel with
  | [] => ""
  | e :: _ => pyStrip (textContent e)

/-- `_extract_all_text`: stripped text of each selected element, empty
texts dropped, joined by blank lines. -/
def extract_all_text (sel : List Elem) : String :=
  String.intercalate "\n\n"
    ((sel.map (fun e => pyStrip (textContent e))).filter
      (fun t => !(t == "")))

/-- `config.KEEP_CATEGORIES`. -/
def KEEP_CATEGORIES : List String :=
  ["Biochemistry", "Bioengineering", "Bioinformatics", "Biophysics",
   "Ecology", "Evolutionary biology", "Genetics", "Genomics",
   "Microbiology", "Molecular biology", "Plant biology",
   "Synthetic biology"]

/-- The extracted (non-empty, stripped) subject strings of an article,
in document order. -/
def subjectTexts (article : Elem) : List String :=
  ((selSubjects article).map (fun s => pyStrip (textContent s))).filter
    (fun t => !(t == ""))

/-- The early-return loop of `should_keep_article`: True on the first
subject found in the allow-list. -/
def keptLoop (keep : List String) : List String → Bool
  | [] => false
  | s :: rest => if keep.contains s then true else keptLoop keep rest

/-- `should_keep_article` (allow-list passed explicitly; the source reads
the module global `KEEP_CATEGORIES`). -/
def should_keep_article (keep : List String) (article : Elem) :
    Bool × List String :=
  (keptLoop keep (subjectTexts article), subjectTexts article)

inductive ChunkType where
  | abstract
  | section
deriving DecidableEq, Repr

structure ChunkMeta where
  title : String
  doi : String
  subjects : List String
  section_title : Option String
deriving DecidableEq, Repr

structure Chunk where
  content : String
  type : ChunkType
  section_id : Option String
  metadata : ChunkMeta
deriving DecidableEq, Repr

/-- One section chunk of `chunk_article`. -/
def mkSectionChunk (title doi : String) (subjects : List String)
    (sec : Elem) : Chunk :=
  { content := extract_text (selTag "title" sec) ++ "\n\n" ++
      extract_all_text (selTag "p" sec)
    type := .section
    section_id := sec.getAttr "id"
    metadata := { title := title, doi := doi, subjects := subjects,
                  section_title := some (extract_text (selTag "title" sec)) } }

/-- `chunk_article` (embedding generation elided: it only decorates the
chunks and is an external capability).  `none` models the `return None`
of a filtered article. -/
def chunk_article (keep : List String) (check_categories : Bool)
    (article : Elem) : Option (List Chunk) :=
  if check_categories && !(should_keep_article keep article).1 then none
  else
    let subjects := (should_keep_article keep article).2
    let title := extract_text (selTag "article-title" article)
    let doi := extract_text (selArticleIdDoi article)
    let abstract := extract_all_text (selAbstractP article)
    some ({ content := title ++ "\n\n" ++ abstract
            type := .abstract
            section_id := none
            metadata := { title := title, doi := doi, subjects := subjects,
                          section_title := none } } ::
      (selBodySecId article).map (mkSectionChunk title doi subjects))

/-! ### Concrete example documents -/

/-- A paragraph element. -/
def pEl (txt : String) : Elem := el "p" [] txt []

/-- Example article: two subjects, abstract with two paragraphs, a body
with an id-bearing section `s1` containing a nested id-bearing
sub-section `s2`, an id-less section, and a final id-bearing section
`s3`. -/
def ex1 : Elem :=
  el "article" [] "" [
    el "front" [] "" [
      el "article-meta" [] "" [
        el "article-id" [("pub-id-type", "doi")] "10.1101/001" [],
        el "title-group" [] "" [el "article-title" [] "Gene study" []],
        el "article-categories" [] "" [
          el "subj-group" [("subj-group-type", "heading")] "" [
            el "subject" [] "Genetics" []],
          el "subj-group" [] "" [el "subject" [] "Ecology" []]],
        el "abstract" [] "" [pEl "We study genes.", pEl "Results are good."]]],
    el "body" [] "" [
      el "sec" [("id", "s1")] "" [
        el "title" [] "Intro" [], pEl "A",
        el "sec" [("id", "s2")] "" [el "title" [] "Sub" [], pEl "B"]],
      el "sec" [] "" [el "title" [] "NoId" [], pEl "C"],
      el "sec" [("id", "s3")] "" [el "title" [] "Methods" [], pEl "D"]]]

/-- The chunk list `chunk_article` produces on `ex1` (category check
disabled). -/
def ex1Chunks : List Chunk :=
  [{ content := "Gene study\n\nWe study genes.\n\nResults are good."
     type := .abstract
     section_id := none
     metadata := { title := "Gene study", doi := "10.1101/001",
                   subjects := ["Genetics", "Ecology"],
                   section_title := none } },
   { content := "Intro\n\nA\n\nB"
     type := .section
     section_id := some "s1"
     metadata := { title := "Gene study", doi := "10.1101/001",
                   subjects := ["Genetics", "Ecology"],
                   section_title := some "Intro" } },
   { content := "Sub\n\nB"
     type := .section
     section_id := some "s2"
     metadata := { title := "Gene study", doi := "10.1101/001",
                   subjects := ["Genetics", "Ecology"],
                   section_title := some "Sub" } },
   { content := "Methods\n\nD"
     type := .section
     section_id := some "s3"
     metadata := { title := "Gene study", doi := "10.1101/001",
                   subjects := ["Genetics", "Ecology"],
                   section_title := some "Methods" } }]

/-! ### C1: shape and order of the chunk list -/

/-- C1: for every article that `chunk_article` does not filter out, the
result has exactly `1 + N` chunks where `N` is the number of id-bearing
body sections (`.//body//sec[@id]`): chunk 0 is the abstract chunk, the
chunks at positions 1..N are section chunks whose `section_id` values
match the selected sections one-for-one, the selected sections all carry
an id, and the selection lists them in document order (it is a sublist of
the preorder traversal of the document). -/
theorem chunk_article_shape (keep : List String) (cc : Bool) (a : Elem)
    (chunks : List Chunk) (h : chunk_article keep cc a = some chunks) :
    chunks.length = 1 + (selBodySecId a).length ∧
    chunks.head?.map Chunk.type = some ChunkType.abstract ∧
    (∀ c ∈ chunks.tail, c.type = ChunkType.section) ∧
    chunks.tail.map Chunk.section_id =
      (selBodySecId a).map (fun s => s.getAttr "id") ∧
    (∀ s ∈ selBodySecId a, s.tag = "sec" ∧ (s.getAttr "id").isSome = true) ∧
    (selBodySecId a).Sublist (preorder a.children) := by
  unfold chunk_article at h
  split at h
  · exact absurd h (by simp)
  · rw [Option.some_inj] at h
    subst h
    refine ⟨by simp [Nat.add_comm], rfl, ?_, ?_, ?_, ?_⟩
    · intro c hc
      simp only [List.tail_cons] at hc
      rcases List.mem_map.1 hc with ⟨s, _, rfl⟩
      rfl
    · simp only [List.tail_cons, List.map_map]
      rfl
    · unfold selBodySecId
      refine select_mem_prop _ _ _ _ _ ?_
      intro q hq
      simp only [Bool.and_eq_true, beq_iff_eq] at hq
      exact ⟨hq.1.2, hq.2⟩
    · exact select_sublist_preorder _ _ _ _

/-- Witness for C1 at the concrete article `ex1`: the hypothesis of
`chunk_article_shape` is discharged by evaluation. -/
theorem chunk_article_shape_witness :
    ex1Chunks.length = 1 + (selBodySecId ex1).length ∧
    ex1Chunks.head?.map Chunk.type = some ChunkType.abstract :=
  ⟨(chunk_article_shape [] false ex1 ex1Chunks (by decide)).1,
   (chunk_article_shape [] false ex1 ex1Chunks (by decide)).2.1⟩

/-! ### C2: the category filter -/

/-- `keptLoop` is membership of some subject in the allow-list. -/
theorem keptLoop_iff (keep : List String) (l : List String) :
    keptLoop keep l = true ↔ ∃ s ∈ l, s ∈ keep := by
  induction l with
  | nil => simp [keptLoop]
  | cons a rest ih =>
      by_cases hc : a ∈ keep
      · simp only [keptLoop]
        rw [if_pos (by simpa using hc)]
        simp only [true_iff]
        exact ⟨a, List.mem_cons_self a rest, hc⟩
      · simp only [keptLoop]
        rw [if_neg (by simpa using hc), ih]
        constructor
        · rintro ⟨s, hs, hk⟩
          exact ⟨s, List.mem_cons_of_mem _ hs, hk⟩
        · rintro ⟨s, hs, hk⟩
          rcases List.mem_cons.1 hs with rfl | hs'
          · exact absurd hk hc
          · exact ⟨s, hs', hk⟩

/-- An empty allow-list keeps nothing. -/
theorem keptLoop_nil (l : List String) : keptLoop [] l = false := by
  induction l with
  | nil => rfl
  | cons a rest ih => simpa [keptLoop] using ih

/-- C2: `should_keep_article` returns the ordered list of non-empty
extracted subject strings, and keeps the article iff one of them is in
the allow-list (exact string membership); with an empty allow-list
nothing is ever kept. -/
theorem should_keep_article_spec (keep : List String) (a : Elem) :
    ((should_keep_article keep a).1 = true ↔
      ∃ s ∈ (should_keep_article keep a).2, s ∈ keep) ∧
    (should_keep_article keep a).2 = subjectTexts a ∧
    (∀ s ∈ (should_keep_article keep a).2, s ≠ "") ∧
    (should_keep_article [] a).1 = false := by
  refine ⟨keptLoop_iff keep _, rfl, ?_, keptLoop_nil _⟩
  intro s hs
  have h := List.of_mem_filter hs
  simpa using h

/-- Witness for C2 at `ex1`: the article has subjects, yet an empty
allow-list rejects it, while the configured allow-list keeps it. -/
theorem should_keep_article_spec_witness :
    (should_keep_article [] ex1).1 = false ∧
    (should_keep_article KEEP_CATEGORIES ex1).1 = true :=
  ⟨(should_keep_article_spec [] ex1).2.2.2,
   ((should_keep_article_spec KEEP_CATEGORIES ex1).1).2
     ⟨"Genetics", by decide, by decide⟩⟩

/-! ### C3: content of a section chunk -/

/-- Per the spec's words (§4.2 step 4): the paragraphs of a section
EXCLUDING those of nested sub-sections (state flips once a nested `sec`
is entered).  The code instead selects all `.//p` descendants; this
definition exists to be compared with the code's behaviour. -/
def specDirectP (sec : Elem) : List Elem :=
  select (fun f x => f || x.tag == "sec")
    (fun q => !q.1 && q.2.tag == "p") false sec

/-- Per the spec's words: section title, blank line, direct paragraph
text only. -/
def specSectionContent (sec : Elem) : String :=
  extract_text (selTag "title" sec) ++ "\n\n" ++
    extract_all_text (specDirectP sec)

/-- The id-bearing section `s1` of `ex1`, with its nested id-bearing
sub-section `s2`. -/
def ex1s1 : Elem :=
  el "sec" [("id", "s1")] "" [
    el "title" [] "Intro" [], pEl "A",
    el "sec" [("id", "s2")] "" [el "title" [] "Sub" [], pEl "B"]]

/-- C3 counterexample: for the first id-bearing section of `ex1` the
code's chunk content is "Intro\n\nA\n\nB" — it contains the nested
sub-section's paragraph "B", which also appears in the nested section's
own chunk — whereas the claimed direct-paragraph-only content is
"Intro\n\nA".  So the claim fails on the code. -/
theorem section_chunk_nested_cex :
    (selBodySecId ex1).head? = some ex1s1 ∧
    chunk_article [] false ex1 = some ex1Chunks ∧
    (ex1Chunks[1]?).map Chunk.content = some "Intro\n\nA\n\nB" ∧
    specSectionContent ex1s1 = "Intro\n\nA" ∧
    ¬ (ex1Chunks[1]?).map Chunk.content = some (specSectionContent ex1s1) ∧
    (ex1Chunks[2]?).map Chunk.content = some "Sub\n\nB" :=
  ⟨rfl, by decide, by decide, by decide, by decide, by decide⟩

/-- `.//t` is the document-order filter of the preorder traversal. -/
theorem selTag_eq_filter (t : String) (e : Elem) :
    selTag t e = (preorder e.children).filter (fun x => x.tag == t) := by
  unfold selTag select preorder
  rw [annotL_map_snd (fun _ _ => ()) (fun f _ => f) () false e.children,
    List.filter_map]
  rfl

/-- C3 amended: each id-bearing section's chunk content is the section
title, a blank line, and the non-empty stripped texts of ALL paragraphs
in the section's entire subtree — nested sub-sections included — in
document order, joined by blank lines (so a nested sub-section's
paragraph text recurs in the ancestor section's chunk, as
`section_chunk_nested_cex` shows concretely). -/
theorem section_chunk_content_amended (keep : List String) (cc : Bool)
    (a : Elem) (chunks : List Chunk)
    (h : chunk_article keep cc a = some chunks) :
    chunks.tail = (selBodySecId a).map
      (mkSectionChunk (extract_text (selTag "article-title" a))
        (extract_text (selArticleIdDoi a))
        (should_keep_article keep a).2) ∧
    ∀ t d subs sec, (mkSectionChunk t d subs sec).content =
      extract_text (selTag "title" sec) ++ "\n\n" ++
      String.intercalate "\n\n"
        ((((preorder sec.children).filter (fun x => x.tag == "p")).map
          (fun e => pyStrip (textContent e))).filter
            (fun t => !(t == ""))) := by
  constructor
  · unfold chunk_article at h
    split at h
    · exact absurd h (by simp)
    · rw [Option.some_inj] at h
      subst h
      rfl
  · intro t d subs sec
    unfold mkSectionChunk extract_all_text
    simp only [selTag_eq_filter]

/-- Witness for C3's amended theorem at `ex1`. -/
theorem section_chunk_content_amended_witness :
    ex1Chunks.tail = (selBodySecId ex1).map
      (mkSectionChunk (extract_text (selTag "article-title" ex1))
        (extract_text (selArticleIdDoi ex1))
        (should_keep_article [] ex1).2) :=
  (section_chunk_content_amended [] false ex1 ex1Chunks (by decide)).1

/-! ### The vector store and search layer
(src/vector_database.py, src/search_interface.py).  Distances reported
by the underlying store are modelled as rationals. -/

/-- The flat string-valued metadata record written by
`BioRxivVectorDB.add_chunks` and returned by queries. -/
structure StoredMeta where
  typ : String
  title : String
  doi : String
  subjects : String
  embedding_model : String
  embedding_dimension : String
  content_length : String
  added_at : String
  section_id : Option String
  section_title : Option String
deriving DecidableEq, Repr

/-- The parallel lists a ChromaDB query returns (`ids`, `documents`,
`metadatas`, `distances`, each already unwrapped from its singleton
outer list). -/
structure RawReply where
  ids : List String
  documents : List String
  metadatas : List StoredMeta
  distances : List ℚ
deriving DecidableEq

/-- One formatted search result. -/
structure SearchResult where
  id : String
  content : String
  metadata : StoredMeta
  similarity : ℚ
  distance : ℚ
deriving DecidableEq

/-- The distance-to-similarity formula of `BioRxivVectorDB.search` (and
`search_by_embedding`): `similarity = 1 - distance`, unclamped. -/
def vdb_similarity (d : ℚ) : ℚ := 1 - d

/-- The distance-to-similarity formula of
`BioRxivSearchInterface.search`: `similarity = max(0, 1 - distance/2)`. -/
def si_similarity (d : ℚ) : ℚ := max 0 (1 - d / 2)

/-- Zip of the four parallel reply lists (the source iterates one index
over all four). -/
def zip4 {α β γ δ : Type} : List α → List β → List γ → List δ →
    List (α × β × γ × δ)
  | a :: as, b :: bs, c :: cs, d :: ds => (a, b, c, d) :: zip4 as bs cs ds
  | _, _, _, _ => []

/-- The result-formatting loop of `BioRxivVectorDB.search`. -/
def formatResultsVDB (r : RawReply) : List SearchResult :=
  (zip4 r.ids r.documents r.metadatas r.distances).map
    (fun q => { id := q.1, content := q.2.1, metadata := q.2.2.1,
                similarity := vdb_similarity q.2.2.2,
                distance := q.2.2.2 })

/-- The result-formatting loop of `BioRxivSearchInterface.search`. -/
def formatResultsSI (r : RawReply) : List SearchResult :=
  (zip4 r.ids r.documents r.metadatas r.distances).map
    (fun q => { id := q.1, content := q.2.1, metadata := q.2.2.1,
                similarity := si_similarity q.2.2.2,
                distance := q.2.2.2 })

/-- A fourth component of the zip of equally long lists is a member of
the fourth list. -/
theorem zip4_mem_fourth {α β γ δ : Type} :
    ∀ (as : List α) (bs : List β) (cs : List γ) (ds : List δ)
      (q : α × β × γ × δ), q ∈ zip4 as bs cs ds → q.2.2.2 ∈ ds := by
  intro as
  induction as with
  | nil => intro bs cs ds q hq; simp [zip4] at hq
  | cons a as ih =>
      intro bs cs ds q hq
      rcases bs with _ | ⟨b, bs⟩
      · simp [zip4] at hq
      rcases cs with _ | ⟨c, cs⟩
      · simp [zip4] at hq
      rcases ds with _ | ⟨d, ds⟩
      · simp [zip4] at hq
      rcases List.mem_cons.1 hq with rfl | hq'
      · exact List.mem_cons_self _ _
      · exact List.mem_cons_of_mem _ (ih bs cs ds q hq')

/-- Mapping a function of the fourth component over the zip of equally
long lists is mapping it over the fourth list. -/
theorem zip4_map_fourth {α β γ δ ε : Type} (f : δ → ε) :
    ∀ (as : List α) (bs : List β) (cs : List γ) (ds : List δ),
      as.length = ds.length → bs.length = ds.length →
      cs.length = ds.length →
      (zip4 as bs cs ds).map (fun q => f q.2.2.2) = ds.map f := by
  intro as
  induction as with
  | nil =>
      intro bs cs ds h1 _ _
      rcases ds with _ | ⟨d, ds⟩
      · rcases bs with _ | _ <;> rcases cs with _ | _ <;> rfl
      · simp at h1
  | cons a as ih =>
      intro bs cs ds h1 h2 h3
      rcases ds with _ | ⟨d, ds⟩
      · simp at h1
      rcases bs with _ | ⟨b, bs⟩
      · simp at h2
      rcases cs with _ | ⟨c, cs⟩
      · simp at h3
      simp only [zip4, List.map_cons, List.cons.injEq, true_and]
      exact ih bs cs ds (by simpa using h1) (by simpa using h2)
        (by simpa using h3)

/-! ### C4: the two similarity formulas differ -/

/-- C4 counterexample: at raw distance 1 the Vector Store's formatter
computes similarity 0 while the search interface's computes 1/2, so the
two embedded formatters are not extensionally equal. -/
theorem similarity_formulas_cex :
    vdb_similarity 1 = 0 ∧ si_similarity 1 = 1 / 2 ∧
    vdb_similarity 1 ≠ si_similarity 1 := by
  refine ⟨by norm_num [vdb_similarity], ?_, ?_⟩
  · unfold si_similarity
    rw [max_eq_right (by norm_num)]
    norm_num
  · unfold vdb_similarity si_similarity
    rw [max_eq_right (by norm_num)]
    norm_num

/-- C4 amended: the two search paths do NOT share one formula.  The
Vector Store's path computes `1 - d`; the search interface's computes
`max 0 (1 - d/2)`; the two agree at a raw distance `d` exactly when
`d = 0`. -/
theorem similarity_formulas_amended :
    (∀ (r : RawReply) (res : SearchResult), res ∈ formatResultsVDB r →
      res.similarity = vdb_similarity res.distance) ∧
    (∀ (r : RawReply) (res : SearchResult), res ∈ formatResultsSI r →
      res.similarity = si_similarity res.distance) ∧
    (∀ d : ℚ, vdb_similarity d = si_similarity d ↔ d = 0) := by
  refine ⟨?_, ?_, ?_⟩
  · intro r res hres
    rcases List.mem_map.1 hres with ⟨q, _, rfl⟩
    rfl
  · intro r res hres
    rcases List.mem_map.1 hres with ⟨q, _, rfl⟩
    rfl
  · intro d
    unfold vdb_similarity si_similarity
    rcases le_total (1 - d / 2) 0 with h | h
    · rw [max_eq_left h]
      constructor
      · intro h0
        linarith
      · intro h0
        subst h0
        linarith
    · rw [max_eq_right h]
      constructor
      · intro h0
        linarith
      · intro h0
        subst h0
        norm_num

/-- Witness for C4's amended theorem: the two formulas agree at
distance 0. -/
theorem similarity_formulas_amended_witness :
    vdb_similarity 0 = si_similarity 0 :=
  (similarity_formulas_amended.2.2 0).2 rfl

/-! ### C5: similarity range and ordering -/

/-- A concrete stored-metadata record. -/
def mdEx : StoredMeta :=
  { typ := "abstract", title := "Gene study", doi := "10.1101/001",
    subjects := "[\"Genetics\", \"Ecology\"]",
    embedding_model := "allenai/scibert_scivocab_uncased",
    embedding_dimension := "768", content_length := "47",
    added_at := "2026-01-01T00:00:00",
    section_id := none, section_title := none }

/-- A reply whose single raw cosine distance is 3/2 (any distance in
(1, 2] behaves the same). -/
def rawCex : RawReply :=
  { ids := ["id-1"], documents := ["doc"], metadatas := [mdEx],
    distances := [3 / 2] }

/-- The formatted result the Vector Store path produces from
`rawCex`. -/
def resCex : SearchResult :=
  { id := "id-1", content := "doc", metadata := mdEx,
    similarity := vdb_similarity (3 / 2), distance := 3 / 2 }

/-- C5 counterexample: the Vector Store's search path does not clamp:
at raw distance 3/2 it reports similarity `-1/2`, outside `[0, 1]`. -/
theorem similarity_out_of_range_cex :
    (formatResultsVDB rawCex).map SearchResult.similarity = [-(1 / 2)] ∧
    ∃ res ∈ formatResultsVDB rawCex,
      ¬ (0 ≤ res.similarity ∧ res.similarity ≤ 1) := by
  constructor
  · simp only [formatResultsVDB, rawCex, zip4, List.map_cons, List.map_nil]
    norm_num [vdb_similarity]
  · refine ⟨resCex, ?_, ?_⟩
    · simp [formatResultsVDB, rawCex, zip4, resCex]
    · rintro ⟨h1, -⟩
      rw [resCex] at h1
      simp only [vdb_similarity] at h1
      norm_num at h1

/-- C5 amended: for a reply of equally long parallel lists whose raw
distances lie in the cosine-distance range `[0, 2]` and arrive sorted
non-decreasingly, the Vector Store path yields similarities in `[-1, 1]`
(NOT clamped to `[0, 1]`) in non-increasing order, while the search
interface path yields similarities in `[0, 1]` in non-increasing
order. -/
theorem search_similarity_amended (r : RawReply)
    (hlen1 : r.ids.length = r.distances.length)
    (hlen2 : r.documents.length = r.distances.length)
    (hlen3 : r.metadatas.length = r.distances.length)
    (hrange : ∀ d ∈ r.distances, 0 ≤ d ∧ d ≤ 2)
    (hsorted : r.distances.Pairwise (· ≤ ·)) :
    (formatResultsVDB r).map SearchResult.similarity =
      r.distances.map vdb_similarity ∧
    (∀ res ∈ formatResultsVDB r,
      -1 ≤ res.similarity ∧ res.similarity ≤ 1) ∧
    ((formatResultsVDB r).map SearchResult.similarity).Pairwise (· ≥ ·) ∧
    (formatResultsSI r).map SearchResult.similarity =
      r.distances.map si_similarity ∧
    (∀ res ∈ formatResultsSI r,
      0 ≤ res.similarity ∧ res.similarity ≤ 1) ∧
    ((formatResultsSI r).map SearchResult.similarity).Pairwise (· ≥ ·) := by
  have hv : (formatResultsVDB r).map SearchResult.similarity =
      r.distances.map vdb_similarity := by
    unfold formatResultsVDB
    rw [List.map_map]
    exact zip4_map_fourth vdb_similarity r.ids r.documents r.metadatas
      r.distances hlen1 hlen2 hlen3
  have hs : (formatResultsSI r).map SearchResult.similarity =
      r.distances.map si_similarity := by
    unfold formatResultsSI
    rw [List.map_map]
    exact zip4_map_fourth si_similarity r.ids r.documents r.metadatas
      r.distances hlen1 hlen2 hlen3
  refine ⟨hv, ?_, ?_, hs, ?_, ?_⟩
  · intro res hres
    rcases List.mem_map.1 hres with ⟨q, hq, rfl⟩
    have hd := hrange _ (zip4_mem_fourth _ _ _ _ _ hq)
    constructor
    · show -1 ≤ vdb_similarity q.2.2.2
      unfold vdb_similarity
      linarith [hd.2]
    · show vdb_similarity q.2.2.2 ≤ 1
      unfold vdb_similarity
      linarith [hd.1]
  · rw [hv, List.pairwise_map]
    refine hsorted.imp ?_
    intro a b hab
    unfold vdb_similarity
    linarith
  · intro res hres
    rcases List.mem_map.1 hres with ⟨q, hq, rfl⟩
    have hd := hrange _ (zip4_mem_fourth _ _ _ _ _ hq)
    constructor
    · exact le_max_left _ _
    · show si_similarity q.2.2.2 ≤ 1
      unfold si_similarity
      refine max_le (by norm_num) ?_
      linarith [hd.1]
  · rw [hs, List.pairwise_map]
    refine hsorted.imp ?_
    intro a b hab
    unfold si_similarity
    exact max_le_max (le_refl 0) (by linarith)

/-- A two-hit reply with distances 0 and 2. -/
def rawW : RawReply :=
  { ids := ["a", "b"], documents := ["da", "db"],
    metadatas := [mdEx, mdEx], distances := [0, 2] }

/-- Witness for C5's amended theorem on a concrete two-hit reply with
distances 0 and 2. -/
theorem search_similarity_amended_witness :
    (formatResultsVDB rawW).map SearchResult.similarity =
      rawW.distances.map vdb_similarity ∧
    ∀ res ∈ formatResultsSI rawW,
      0 ≤ res.similarity ∧ res.similarity ≤ 1 :=
  ⟨(search_similarity_amended rawW rfl rfl rfl
      (by intro d hd; simp only [rawW, List.mem_cons, List.not_mem_nil,
        or_false] at hd; rcases hd with rfl | rfl <;> norm_num)
      (by norm_num [rawW, List.pairwise_cons])).1,
   (search_similarity_amended rawW rfl rfl rfl
      (by intro d hd; simp only [rawW, List.mem_cons, List.not_mem_nil,
        or_false] at hd; rcases hd with rfl | rfl <;> norm_num)
      (by norm_num [rawW, List.pairwise_cons])).2.2.2.2.1⟩

/-! ### C6: batch preparation in `add_chunks` -/

/-- `json.dumps` on a list of plain strings (escaping elided). -/
def jsonDumps (l : List String) : String :=
  "[" ++ String.intercalate ", " (l.map (fun s => "\"" ++ s ++ "\"")) ++ "]"

/-- A chunk dictionary as fed to `BioRxivVectorDB.add_chunks` (content,
type, optional embedding, and the metadata fields the source reads). -/
structure InChunk where
  content : String
  typ : String
  embedding : Option (List ℚ)
  title : String
  doi : String
  subjects : List String
  section_id : Option String
  section_title : Option String
  embedding_model : Option String
  embedding_dimension : Option Nat
deriving DecidableEq, Repr

/-- The metadata record `add_chunks` builds for one chunk
(vector_database.py lines 96-113): title truncated to 500 characters,
section title to 200, subjects JSON-serialized. -/
def mkStoredMeta (now : String) (c : InChunk) : StoredMeta :=
  { typ := c.typ
    title := pyTake 500 c.title
    doi := c.doi
    subjects := jsonDumps c.subjects
    embedding_model := c.embedding_model.getD ""
    embedding_dimension := toString (c.embedding_dimension.getD 768)
    content_length := toString c.content.length
    added_at := now
    section_id := c.section_id
    section_title := c.section_title.map (pyTake 200) }

/-- The per-batch list-building loop of `add_chunks`.  `supply` models
the stream of fresh uuid4 ids, one drawn per chunk.  Faithful to the
source: the id is appended BEFORE the missing-embedding check, so a
skipped chunk leaves its id in `ids` while the other three lists get no
entry. -/
def prepBatch (now : String) : List String → List InChunk →
    List String × List (List ℚ) × List String × List StoredMeta
  | _, [] => ([], [], [], [])
  | supply, c :: cs =>
      let cid := supply.headD ""
      let rest := prepBatch now supply.tail cs
      match c.embedding with
      | none => (cid :: rest.1, rest.2.1, rest.2.2.1, rest.2.2.2)
      | some e => (cid :: rest.1, e :: rest.2.1, c.content :: rest.2.2.1,
          mkStoredMeta now c :: rest.2.2.2)

/-- `collection.add` of ChromaDB: inserts the positionally paired
records, but raises when the parallel lists have unequal lengths. -/
def chromaAdd (ids : List String) (embeddings : List (List ℚ))
    (documents : List String) (metadatas : List StoredMeta) :
    Except String (List (String × List ℚ × String × StoredMeta)) :=
  if ids.length = embeddings.length ∧ ids.length = documents.length ∧
      ids.length = metadatas.length then
    .ok (zip4 ids embeddings documents metadatas)
  else .error "unequal lengths"

/-- `chunks[i:i+batch_size]` slicing loop (fuel-structured so it
evaluates; the fuel `l.length` is enough for any batch size ≥ 1). -/
def pyBatchesAux {α : Type} (fuel bs : Nat) (l : List α) : List (List α) :=
  match fuel, l with
  | 0, _ => []
  | _, [] => []
  | f + 1, x :: xs => (x :: xs).take bs :: pyBatchesAux f bs ((x :: xs).drop bs)

def pyBatches {α : Type} (bs : Nat) (l : List α) : List (List α) :=
  pyBatchesAux l.length bs l

/-- The batch loop of `add_chunks`: prepare each batch, call the store
when the batch has any embeddings, accumulate the inserted count; a
store error propagates (the source has no try/except around
`collection.add`). -/
def addBatches (now : String) : List String → List (List InChunk) →
    Except String Nat
  | _, [] => .ok 0
  | supply, b :: rest =>
      let p := prepBatch now supply b
      if p.2.1.isEmpty then addBatches now (supply.drop b.length) rest
      else
        match chromaAdd p.1 p.2.1 p.2.2.1 p.2.2.2 with
        | .error e => .error e
        | .ok _ =>
            match addBatches now (supply.drop b.length) rest with
            | .error e => .error e
            | .ok n => .ok (p.2.1.length + n)

/-- `BioRxivVectorDB.add_chunks`. -/
def add_chunks (now : String) (supply : List String)
    (chunks : List InChunk) (batch_size : Nat) : Except String Nat :=
  if chunks.isEmpty then .ok 0
  else addBatches now supply (pyBatches batch_size chunks)

/-- A chunk that lacks an embedding. -/
def cNoEmb : InChunk :=
  { content := "no-emb", typ := "abstract", embedding := none,
    title := "T1", doi := "d1", subjects := ["Genetics"],
    section_id := none, section_title := none,
    embedding_model := none, embedding_dimension := none }

/-- A chunk that carries an embedding. -/
def cEmb : InChunk :=
  { content := "with-emb", typ := "section", embedding := some [1, 0],
    title := "T2", doi := "d2", subjects := ["Ecology"],
    section_id := some "s1", section_title := some "Methods",
    embedding_model := some "m", embedding_dimension := some 2 }

/-- C6: the claim is right and the code is wrong.  `add_chunks` appends
the generated id to `ids` BEFORE checking for the embedding, so on a
batch with one missing-embedding chunk and one good chunk the prepared
lists are misaligned (2 ids vs 1 embedding/document/metadata) and the
store call errors out instead of inserting the good chunk with its own
id: the `"skipping"` warning the code itself prints is not what
happens. -/
theorem add_chunks_skip_misaligns :
    (prepBatch "t0" ["u1", "u2"] [cNoEmb, cEmb]).1 = ["u1", "u2"] ∧
    (prepBatch "t0" ["u1", "u2"] [cNoEmb, cEmb]).2.1.length = 1 ∧
    (prepBatch "t0" ["u1", "u2"] [cNoEmb, cEmb]).2.2.1 = ["with-emb"] ∧
    add_chunks "t0" ["u1", "u2"] [cNoEmb, cEmb] 100 =
      .error "unequal lengths" := by
  refine ⟨rfl, rfl, rfl, ?_⟩
  rfl

/-! ### C7: the subject post-filter -/

/-- The post-filter loop of `BioRxivVectorDB.filter_search` (and of
`BioRxivSearchInterface.search_by_subject`): deserialize each result's
subjects (modelled by the `parse` parameter standing for `json.loads`;
`none` models a decode failure, whose `except: continue` drops the
result), keeping results whose subject list contains the filter
value. -/
def post_filter_subjects (parse : String → Option (List String))
    (subject_filter : String) : List SearchResult → List SearchResult
  | [] => []
  | r :: rest =>
      match parse r.metadata.subjects with
      | some subs =>
          if subs.contains subject_filter then
            r :: post_filter_subjects parse subject_filter rest
          else post_filter_subjects parse subject_filter rest
      | none => post_filter_subjects parse subject_filter rest

/-- Does a result survive the subject post-filter? -/
def subjectMatch (parse : String → Option (List String))
    (subject_filter : String) (r : SearchResult) : Bool :=
  match parse r.metadata.subjects with
  | some subs => subs.contains subject_filter
  | none => false

/-- `search_by_subject` then truncates the survivors to `n`. -/
def search_by_subject_filter (parse : String → Option (List String))
    (subject : String) (n : Nat) (results : List SearchResult) :
    List SearchResult :=
  (post_filter_subjects parse subject results).take n

/-- C7: the subject post-filter returns exactly the subsequence of
results whose deserialized subject list contains the filter value, and
both it and its `n`-truncation are sublists of the input — survivors
keep their relative similarity-rank order, nothing is reordered. -/
theorem subject_filter_order (parse : String → Option (List String))
    (f : String) (rs : List SearchResult) :
    post_filter_subjects parse f rs = rs.filter (subjectMatch parse f) ∧
    (post_filter_subjects parse f rs).Sublist rs ∧
    ∀ n, (search_by_subject_filter parse f n rs).Sublist rs := by
  have heq : post_filter_subjects parse f rs =
      rs.filter (subjectMatch parse f) := by
    induction rs with
    | nil => rfl
    | cons r rest ih =>
        rcases hp : parse r.metadata.subjects with _ | subs
        · simp only [post_filter_subjects, subjectMatch, List.filter_cons,
            hp]
          simpa using ih
        · rcases hc : subs.contains f with _ | _
          · simp only [post_filter_subjects, subjectMatch,
              List.filter_cons, hp, hc]
            simpa using ih
          · simp only [post_filter_subjects, subjectMatch,
              List.filter_cons, hp, hc]
            simpa using ih
  refine ⟨heq, ?_, ?_⟩
  · rw [heq]
    exact List.filter_sublist rs
  · intro n
    exact List.Sublist.trans (List.take_sublist n _)
      (by rw [heq]; exact List.filter_sublist rs)

/-! ### C8: the empty query -/

/-- `SciBERTEmbedder.embed_text`: empty or whitespace-only text gets the
zero vector (the source comments "Return zero vector for empty text");
a model failure (`model = none`) also falls back to the zero vector. -/
def embed_text (dim : Nat) (model : String → Option (List ℚ))
    (text : String) : List ℚ :=
  if text == "" || pyStrip text == "" then List.replicate dim 0
  else
    match model text with
    | some v => v
    | none => List.replicate dim 0

/-- `BioRxivVectorDB.search`: embed the query, query the store, format
the reply.  The store (`collection.query`) is an opaque capability. -/
def vdb_search (dim : Nat) (model : String → Option (List ℚ))
    (store : List ℚ → Nat → RawReply) (query : String) (n : Nat) :
    List SearchResult :=
  formatResultsVDB (store (embed_text dim model query) n)

/-- A concrete embedding model. -/
def exModel : String → Option (List ℚ) := fun _ => some [1, 1]

/-- A concrete store that answers every query vector with `rawW`. -/
def exStore : List ℚ → Nat → RawReply := fun _ _ => rawW

/-- C8 counterexample: the empty (and the whitespace-only) query is
silently embedded as the zero vector and the similarity search runs on
it, returning an ordinary result list — no input-validation failure is
signaled anywhere on the path. -/
theorem empty_query_cex :
    embed_text 2 exModel "" = [0, 0] ∧
    pyStrip "  " = "" ∧
    embed_text 2 exModel "  " = [0, 0] ∧
    vdb_search 2 exModel exStore "" 5 = formatResultsVDB rawW ∧
    (vdb_search 2 exModel exStore "" 5).length = 2 := by
  refine ⟨rfl, rfl, rfl, rfl, rfl⟩

/-- C8 amended: for every query that is empty after stripping,
`embed_text` returns the zero vector and `search` proceeds to run the
similarity search on that zero vector; no failure is reported to the
caller. -/
theorem empty_query_amended (dim : Nat)
    (model : String → Option (List ℚ))
    (store : List ℚ → Nat → RawReply) (q : String) (n : Nat)
    (h : pyStrip q = "") :
    embed_text dim model q = List.replicate dim 0 ∧
    vdb_search dim model store q n =
      formatResultsVDB (store (List.replicate dim 0) n) := by
  have hcond : (q == "" || pyStrip q == "") = true := by
    simp [h]
  constructor
  · unfold embed_text
    rw [if_pos hcond]
  · unfold vdb_search embed_text
    rw [if_pos hcond]

/-- Witness for C8's amended theorem at the whitespace query. -/
theorem empty_query_amended_witness :
    embed_text 2 exModel " " = List.replicate 2 0 :=
  (empty_query_amended 2 exModel exStore " " 5 (by rfl)).1

/-! ### C9: answer composition on an empty retrieval
(src/rag_system.py). -/

/-- One entry of the `sources` list `answer_question` builds. -/
structure Source where
  title : String
  typ : String
  similarity : ℚ
  content_preview : String
  sect : Option String
  subjects : List String
deriving DecidableEq

/-- `content[:200] + "..."` when longer than 200 characters. -/
def contentPreview (c : String) : String :=
  if c.length > 200 then pyTake 200 c ++ "..." else c

/-- One source entry (rag_system.py lines 155-172); a failed subjects
parse falls back to the raw serialized string as a one-element list. -/
def mkSource (parse : String → Option (List String))
    (r : SearchResult) : Source :=
  { title := r.metadata.title
    typ := r.metadata.typ
    similarity := r.similarity
    content_preview := contentPreview r.content
    sect := r.metadata.section_title
    subjects :=
      match parse r.metadata.subjects with
      | some subs => subs
      | none => [r.metadata.subjects] }

/-- `', '.join(subjects[:3])`, falling back to the raw string on a
parse failure. -/
def subjectsStr (parse : String → Option (List String))
    (s : String) : String :=
  match parse s with
  | some subs => String.intercalate ", " (subs.take 3)
  | none => s

/-- One formatted context block of `format_context`. -/
def formatChunkContext (parse : String → Option (List String))
    (i : Nat) (r : SearchResult) : String :=
  pyStrip ("\n[Source " ++ toString i ++ "]\nTitle: " ++
    r.metadata.title ++ "\nType: " ++ r.metadata.typ ++ "\nSubjects: " ++
    subjectsStr parse r.metadata.subjects ++ "\nContent: " ++
    r.content ++ "\n")

/-- `BioRxivRAG.format_context`. -/
def format_context (parse : String → Option (List String))
    (results : List SearchResult) : String :=
  if results.isEmpty then "No relevant context found."
  else
    String.intercalate "\n\n"
      (results.enum.map (fun q => formatChunkContext parse (q.1 + 1) q.2))

/-- First-appearance-ordered distinct titles — the insertion order of
the `papers` dict of `_generate_summary_answer`. -/
def insertTitles (acc : List String) : List SearchResult → List String
  | [] => acc
  | r :: rest =>
      if acc.contains r.metadata.title then insertTitles acc rest
      else insertTitles (acc ++ [r.metadata.title]) rest

/-- The chunks grouped under one title. -/
def paperChunks (results : List SearchResult) (t : String) :
    List SearchResult :=
  results.filter (fun r => r.metadata.title == t)

/-- The raw subjects string recorded for a title (set when the title
first appears). -/
def paperSubjectsRaw (results : List SearchResult) (t : String) :
    String :=
  match results.find? (fun r => r.metadata.title == t) with
  | some r => r.metadata.subjects
  | none => ""

/-- The per-paper lines of the structured summary. -/
def paperLines (parse : String → Option (List String))
    (results : List SearchResult) (i : Nat) (t : String) : List String :=
  let chunks := paperChunks results t
  let base :=
    ["\n" ++ toString i ++ ". **" ++ t ++ "**",
     "   - Research area: " ++
       subjectsStr parse (paperSubjectsRaw results t),
     "   - Relevant sections: " ++ toString chunks.length]
  match chunks.filter (fun c => c.metadata.typ == "abstract") with
  | [] => base
  | a :: _ => base ++ ["   - Key findings: " ++ (pyTake 300 a.content ++ "...")]

/-- `BioRxivRAG._generate_summary_answer`. -/
def generate_summary_answer (parse : String → Option (List String))
    (query : String) (results : List SearchResult) : String :=
  if results.isEmpty then "No relevant information found."
  else
    let titles := insertTitles [] results
    let headerLine := "Based on " ++ toString results.length ++
      " relevant sections from " ++ toString titles.length ++
      " scientific papers:"
    let paperParts :=
      (titles.enum.map (fun q => paperLines parse results (q.1 + 1) q.2)).flatten
    let summaryLine := "\n**Summary**: The retrieved papers cover aspects related to '" ++
      query ++ "' across " ++
      toString ((results.map (fun r => r.metadata.subjects)).dedup.length) ++
      " different research areas. For detailed information, please refer to the specific sections above."
    String.intercalate "\n" (headerLine :: (paperParts ++ [summaryLine]))

/-- The answer record of `answer_question`. -/
structure Answer where
  query : String
  answer : String
  sources : List Source
  context_used : String
  method : String
  num_sources : Option Nat
deriving DecidableEq

/-- `BioRxivRAG.retrieve_context`: search, then keep results at or above
the similarity threshold. -/
def retrieve_context (search : String → Nat → List SearchResult)
    (q : String) (n : Nat) (min_similarity : ℚ) : List SearchResult :=
  (search q n).filter (fun r => min_similarity ≤ r.similarity)

/-- `BioRxivRAG.answer_question` with `use_llm = False` (the default;
the LLM capability is external). -/
def answer_question (parse : String → Option (List String))
    (search : String → Nat → List SearchResult) (q : String) (n : Nat) :
    Answer :=
  let results := retrieve_context search q n 0
  if results.isEmpty then
    { query := q
      answer := "I couldn't find relevant information in the bioRxiv database for this question."
      sources := []
      context_used := ""
      method := "no_context"
      num_sources := none }
  else
    { query := q
      answer := generate_summary_answer parse q results
      sources := results.map (mkSource parse)
      context_used := format_context parse results
      method := "summary_based"
      num_sources := some (results.map (mkSource parse)).length }

/-- C9: when retrieval yields no results, answer composition returns the
fixed no-context triple — fixed answer text, empty sources, method
"no_context" — and never fails; the summary generator likewise has a
fixed response for the empty list. -/
theorem answer_question_no_context
    (parse : String → Option (List String))
    (search : String → Nat → List SearchResult) (q : String) (n : Nat)
    (h : retrieve_context search q n 0 = []) :
    answer_question parse search q n =
      { query := q
        answer := "I couldn't find relevant information in the bioRxiv database for this question."
        sources := []
        context_used := ""
        method := "no_context"
        num_sources := none } ∧
    (answer_question parse search q n).sources = [] ∧
    (answer_question parse search q n).method = "no_context" ∧
    generate_summary_answer parse q [] = "No relevant information found." := by
  have ha : answer_question parse search q n =
      { query := q
        answer := "I couldn't find relevant information in the bioRxiv database for this question."
        sources := []
        context_used := ""
        method := "no_context"
        num_sources := none } := by
    unfold answer_question
    rw [h]
    rfl
  exact ⟨ha, by rw [ha], by rw [ha], rfl⟩

/-- A search capability that returns nothing. -/
def emptySearch : String → Nat → List SearchResult := fun _ _ => []

/-- Witness for C9 with a search that finds nothing. -/
theorem answer_question_no_context_witness :
    (answer_question (fun _ => none) emptySearch "any question" 5).method =
      "no_context" :=
  (answer_question_no_context (fun _ => none) emptySearch
    "any question" 5 rfl).2.2.1

/-! ### C10: metadata truncation invariant of the index -/

/-- C10: every index entry `add_chunks` writes gets metadata built by
`mkStoredMeta`: the stored title is the source title truncated to 500
characters (so never longer than 500), a stored section title is
truncated to 200 characters, and two chunks whose titles agree on their
first 500 characters receive identical stored titles — the grouping key
`_generate_summary_answer` uses cannot tell them apart. -/
theorem stored_metadata_truncation :
    (∀ (now : String) (supply : List String) (batch : List InChunk),
      (prepBatch now supply batch).2.2.2 =
        (batch.filter (fun c => c.embedding.isSome)).map
          (mkStoredMeta now)) ∧
    (∀ (now : String) (c : InChunk),
      (mkStoredMeta now c).title = pyTake 500 c.title ∧
      (mkStoredMeta now c).title.length ≤ 500 ∧
      ∀ st, c.section_title = some st →
        (mkStoredMeta now c).section_title = some (pyTake 200 st) ∧
        (pyTake 200 st).length ≤ 200) ∧
    (∀ (now now' : String) (c c' : InChunk),
      pyTake 500 c.title = pyTake 500 c'.title →
      (mkStoredMeta now c).title = (mkStoredMeta now' c').title) := by
  refine ⟨?_, ?_, ?_⟩
  · intro now supply batch
    induction batch generalizing supply with
    | nil => rfl
    | cons c cs ih =>
        rcases hc : c.embedding with _ | e
        · simp only [prepBatch, hc, List.filter_cons]
          rw [ih supply.tail]
          simp [hc]
        · simp only [prepBatch, hc, List.filter_cons]
          rw [ih supply.tail]
          simp [hc]
  · intro now c
    refine ⟨rfl, ?_, ?_⟩
    · show (pyTake 500 c.title).length ≤ 500
      unfold pyTake
      show (c.title.data.take 500).length ≤ 500
      rw [List.length_take]
      omega
    · intro st hst
      constructor
      · show c.section_title.map (pyTake 200) = some (pyTake 200 st)
        rw [hst]
        rfl
      · show (pyTake 200 st).length ≤ 200
        unfold pyTake
        show (st.data.take 200).length ≤ 200
        rw [List.length_take]
        omega
  · intro now now' c c' hagree
    show pyTake 500 c.title = pyTake 500 c'.title
    exact hagree

/-- A chunk with a 600-character title of all `a`s. -/
def cLong1 : InChunk :=
  { cNoEmb with title := ⟨List.replicate 600 'a'⟩ }

/-- A chunk whose 600-character title agrees with `cLong1`'s on the
first 500 characters and differs afterwards. -/
def cLong2 : InChunk :=
  { cNoEmb with
    title := ⟨List.replicate 500 'a' ++ List.replicate 100 'b'⟩ }

set_option maxRecDepth 4000 in
/-- Witness for C10: two 600-character titles sharing their first 500
characters produce identical stored titles. -/
theorem stored_metadata_truncation_witness :
    (mkStoredMeta "t0" cLong1).title = (mkStoredMeta "t0" cLong2).title :=
  stored_metadata_truncation.2.2 "t0" "t0" cLong1 cLong2 (by decide)

end BiorxivRag
